import Mathlib

/-!
Shallow embedding of `src/podcast_player.py`.

The embedding models the episode data model (`Episode.__init__`) and the
playback screen (`EpisodeDetailScreen`): its fields, `on_button_pressed`,
`toggle_play_pause`, `load_audio`, `download_audio`,
`on_audio_download_complete` and `start_playing`.

Modelling conventions:
* Python floats are modelled as exact rationals (`Rat`); every claim at
  stake concerns only signs, zero and equality of durations/positions,
  which rationals represent exactly.
* Python exceptions are modelled by threading an `Option PyErr` next to
  the mutated object state: a raised exception propagates, but field
  mutations performed before the raise persist on the object, exactly as
  in Python.
* `concurrent.futures`: `load_audio` enters
  `with ThreadPoolExecutor() as executor:` and the `with` block's exit
  calls `executor.shutdown(wait := True)`, which blocks the calling
  thread until the submitted future has completed and its done-callback
  (invoked by `Future.set_result` on the worker thread) has run.  The
  whole download/complete cycle therefore finishes strictly before
  `load_audio` returns, so the embedding runs it synchronously: this is
  the code's actual (sequential) behaviour, not a simplification.
* The network outcome of `requests.get(url, stream=True)` plus the body
  read `response.content` is the external world; it is passed in as a
  `FetchOutcome` value (error before the body, error while reading the
  body after the temp file exists, or success).
* The process-global facts the claims quantify over — which file is
  loaded in the global `pygame.mixer.music`, and which staged temporary
  files exist on disk — are carried as extra fields of the screen state
  (`mixer_music`, `temp_files`), together with a trace of engine/fetch
  commands issued (`events`).
-/

namespace PodcastPlayer

/-- Python exceptions that the modelled code can raise or catch:
`ValueError` (raised by `float` on an unparsable string and by
`load_audio` on a missing URL), `TypeError` (raised by `float(None)`),
and `pygame.error` (raised by `pygame.mixer.music.play()` when no music
has been loaded into the global mixer). -/
inductive PyErr
  | valueError
  | typeError
  | pygameError
  deriving DecidableEq, Repr

/-- The `duration` argument of `Episode.__init__` as it arrives from feed
ingestion: a string (e.g. `itunes_duration` or `"Unknown"`), a number, or
Python `None`. -/
inductive DurationArg
  | str (s : String)
  | num (q : Rat)
  | pyNone
  deriving DecidableEq, Repr

/-- Python truthiness of a duration argument: `None`, the empty string
and numeric zero are falsy; every other value is truthy. -/
def DurationArg.truthy : DurationArg → Bool
  | .str s => !(s == "")
  | .num q => !(q == 0)
  | .pyNone => false

/-- The builtin `float(x)` applied to a duration argument.  Python's
string-to-float parser is external to the repository, so it is passed in
abstractly as `pf : String → Option Rat` (`none` models a parse failure,
which `float` reports by raising `ValueError`).  `float(None)` raises
`TypeError`; `float` of a number never raises. -/
def pyFloat (pf : String → Option Rat) : DurationArg → Except PyErr Rat
  | .str s =>
      match pf s with
      | some q => .ok q
      | none => .error .valueError
  | .num q => .ok q
  | .pyNone => .error .typeError

/-- The comparison `duration != "Unknown"`: only the string `"Unknown"`
is equal to `"Unknown"` in Python; a number or `None` never is. -/
def DurationArg.neUnknown : DurationArg → Bool
  | .str s => !(s == "Unknown")
  | .num _ => true
  | .pyNone => true

/-- The conditional expression in `Episode.__init__`:
`float(duration) if duration and duration != "Unknown" else 0.0`. -/
def durationExpr (pf : String → Option Rat) (d : DurationArg) : Except PyErr Rat :=
  if d.truthy && d.neUnknown then pyFloat pf d else .ok 0

/-- An `Episode` record (`Episode` class, lines 20-29): title,
description, normalised duration, and optional audio URL. -/
structure Episode where
  title : String
  description : String
  duration : Rat
  audio_url : Option String
  deriving DecidableEq, Repr

/-- `Episode.__init__`: stores title, description and `audio_url`
verbatim; evaluates `durationExpr` inside `try: ... except ValueError:`,
defaulting the duration to `0.0` when `float` raises `ValueError`.  Any
other exception (only `TypeError`, from `float(None)`, which the
truthiness guard makes unreachable) would propagate. -/
def Episode.init (pf : String → Option Rat) (title description : String)
    (duration : DurationArg) (audio_url : Option String) : Except PyErr Episode :=
  match durationExpr pf duration with
  | .ok q => .ok ⟨title, description, q, audio_url⟩
  | .error .valueError => .ok ⟨title, description, 0, audio_url⟩
  | .error e => .error e

/-- Engine/fetch commands issued by the screen, recorded most recent
first: `pygame.mixer.music.load/play/pause/unpause`, and the submission
of a download to the executor (`executor.submit(self.download_audio, url)`). -/
inductive Ev
  | load (f : String)
  | play (t : Rat)
  | pause
  | unpause
  | fetchStart (url : String)
  deriving DecidableEq, Repr

/-- State of an `EpisodeDetailScreen` (lines 76-176) together with the
process-global state the screen acts on.  Object fields: `episode`,
`is_playing`, `is_paused`, `current_time`, `audio` (path of the
downloaded file, `None` until a download succeeds).  Global fields:
`mixer_music` is the file currently loaded in the global
`pygame.mixer.music` (shared by every screen), `temp_files` are the
staged temporary files existing on disk (created by
`tempfile.NamedTemporaryFile(delete=False)` and not yet removed), and
`events` is the trace of engine/fetch commands issued. -/
structure EpisodeDetailScreen where
  episode : Episode
  is_playing : Bool
  is_paused : Bool
  current_time : Rat
  audio : Option String
  mixer_music : Option String
  temp_files : List String
  events : List Ev
  deriving DecidableEq, Repr

namespace EpisodeDetailScreen

/-- `EpisodeDetailScreen.__init__`: `is_playing = False`,
`is_paused = False`, `current_time = 0`, `audio = None`.
`pygame.mixer.init()` does not change which music is loaded.  The global
mixer contents and the set of staged temp files left by earlier sessions
are parameters; a fresh screen starts with an empty command trace. -/
def init (episode : Episode) (mixer_music : Option String)
    (temp_files : List String) : EpisodeDetailScreen :=
  { episode := episode
    is_playing := false
    is_paused := false
    current_time := 0
    audio := none
    mixer_music := mixer_music
    temp_files := temp_files
    events := [] }

/-- Python truthiness of an optional string (`None` and `""` are falsy),
used by `if not self.episode.audio_url:` and `if not self.audio:`. -/
def truthyOptStr : Option String → Bool
  | none => false
  | some s => !(s == "")

/-- `toggle_play_pause` (lines 122-131): from playing, pause the mixer
and flip to paused; from paused, unpause and flip to playing; otherwise
do nothing. -/
def toggle_play_pause (s : EpisodeDetailScreen) : EpisodeDetailScreen :=
  if s.is_playing then
    { s with events := Ev.pause :: s.events, is_playing := false, is_paused := true }
  else if s.is_paused then
    { s with events := Ev.unpause :: s.events, is_paused := false, is_playing := true }
  else s

/-- Outcome of the external world for one download
(`requests.get(url, stream=True)` … `response.content`):
* `errEarly` — `requests.get` or `raise_for_status` raises a
  `RequestException` before the temp file is created;
* `errBody tmp` — the temp file `tmp` was created, then reading
  `response.content` raised a `RequestException` (the `with` block closes
  the file but, having been created with `delete=False`, it stays on disk);
* `ok tmp` — the body was written to the fresh temp file `tmp`. -/
inductive FetchOutcome
  | errEarly
  | errBody (tmp : String)
  | ok (tmp : String)
  deriving DecidableEq, Repr

/-- `download_audio` (lines 144-157): on success returns the temp file
path; on any `RequestException` prints an error and returns `None`.  In
both the `errBody` and `ok` cases a new staged temp file now exists on
disk; no branch ever deletes one. -/
def download_audio (w : FetchOutcome) (s : EpisodeDetailScreen) :
    Option String × EpisodeDetailScreen :=
  match w with
  | .errEarly => (none, s)
  | .errBody tmp => (none, { s with temp_files := tmp :: s.temp_files })
  | .ok tmp => (some tmp, { s with temp_files := tmp :: s.temp_files })

/-- The tail of `start_playing` (lines 173-176):
`if not self.is_playing: pygame.mixer.music.play(start=self.current_time);
self.is_playing = True`.  `pygame.mixer.music.play()` raises
`pygame.error` when no music has been loaded into the global mixer;
otherwise it starts the loaded track at the given offset. -/
def playSegment (s : EpisodeDetailScreen) : EpisodeDetailScreen × Option PyErr :=
  if s.is_playing then (s, none)
  else
    match s.mixer_music with
    | none => (s, some PyErr.pygameError)
    | some _ =>
        ({ s with events := Ev.play s.current_time :: s.events, is_playing := true }, none)

/-- `on_audio_download_complete` (lines 159-167): on a non-`None` result
set `self.audio`, load the file into the global mixer, and call
`self.start_playing()`; on `None` just print a failure message.  The
inner `start_playing` call sees `self.audio` freshly set to the temp
file path (a non-empty name), so its `if not self.audio:` guard is
falsy and it reduces to `playSegment`. -/
def on_audio_download_complete (res : Option String) (s : EpisodeDetailScreen) :
    EpisodeDetailScreen × Option PyErr :=
  match res with
  | some f =>
      playSegment
        { s with audio := some f, mixer_music := some f, events := Ev.load f :: s.events }
  | none => (s, none)

/-- `load_audio` (lines 134-142): raise `ValueError` when the episode
has no (truthy) audio URL; otherwise submit `download_audio` to a
`ThreadPoolExecutor` with `on_audio_download_complete` as done-callback.
Exiting the `with` block calls `executor.shutdown(wait=True)`, so the
download and its callback have both finished when `load_audio` returns;
the embedding therefore runs them in sequence. -/
def load_audio (w : FetchOutcome) (s : EpisodeDetailScreen) :
    EpisodeDetailScreen × Option PyErr :=
  if truthyOptStr s.episode.audio_url = false then (s, some PyErr.valueError)
  else
    let s1 := { s with
      events := Ev.fetchStart (s.episode.audio_url.getD "") :: s.events }
    let r := download_audio w s1
    on_audio_download_complete r.1 r.2

/-- `start_playing` (lines 169-176): `if not self.audio: self.load_audio()`
followed by the play segment.  An exception raised inside `load_audio`
propagates and the play segment is not reached. -/
def start_playing (w : FetchOutcome) (s : EpisodeDetailScreen) :
    EpisodeDetailScreen × Option PyErr :=
  if truthyOptStr s.audio then playSegment s
  else
    match load_audio w s with
    | (s1, some e) => (s1, some e)
    | (s1, none) => playSegment s1

/-- `on_button_pressed` (lines 113-120): dispatch on the button id.
`back_button` calls `self.app.pop_screen()`, which removes the screen
from the Textual stack; it does not stop the mixer and does not touch
the staged temp files, so the modelled state is unchanged. -/
def on_button_pressed (w : FetchOutcome) (button_id : String)
    (s : EpisodeDetailScreen) : EpisodeDetailScreen × Option PyErr :=
  if button_id == "play_button" then start_playing w s
  else if button_id == "play_pause_button" then (toggle_play_pause s, none)
  else if button_id == "back_button" then (s, none)
  else (s, none)

end EpisodeDetailScreen

end PodcastPlayer

open PodcastPlayer PodcastPlayer.EpisodeDetailScreen

/-- A concrete episode that has an audio URL, used to instantiate
hypotheses of the theorems below. -/
def epWithUrl : Episode :=
  { title := "ep", description := "d", duration := 120, audio_url := some "http://x/a.mp3" }

/-- A concrete episode whose audio reference is absent. -/
def epNoUrl : Episode :=
  { title := "ep", description := "d", duration := 120, audio_url := none }

/-- C2: for every episode whose `audio_url` is absent, pressing play on a
fresh screen raises `ValueError` synchronously: the returned state is the
initial state itself — not playing, no audio staged, and no command (in
particular no fetch submission) in the trace. -/
theorem C2_play_without_reference_stays_idle (ep : Episode) (ml : Option String)
    (ts : List String) (w : FetchOutcome) (h : ep.audio_url = none) :
    on_button_pressed w "play_button" (init ep ml ts)
        = (init ep ml ts, some PyErr.valueError)
      ∧ (init ep ml ts).is_playing = false
      ∧ (init ep ml ts).audio = none
      ∧ (init ep ml ts).events = [] := by
  refine ⟨?_, rfl, rfl, rfl⟩
  simp [on_button_pressed, start_playing, load_audio, truthyOptStr, init, h]

/-- Witness for C2 at a concrete episode with no audio reference. -/
theorem C2_witness :
    epNoUrl.audio_url = none
      ∧ on_button_pressed FetchOutcome.errEarly "play_button" (init epNoUrl none [])
          = (init epNoUrl none [], some PyErr.valueError) :=
  ⟨rfl, (C2_play_without_reference_stays_idle epNoUrl none [] FetchOutcome.errEarly rfl).1⟩

/-- Characterization of `Episode.__init__` on a string duration: the
stored duration is the parsed value when the string is non-empty, not
`"Unknown"`, and parses; it is `0` otherwise. -/
theorem episode_init_str_eq (pf : String → Option Rat) (t d s : String)
    (url : Option String) :
    Episode.init pf t d (.str s) url
      = .ok ⟨t, d, if s ≠ "" ∧ s ≠ "Unknown" then (pf s).getD 0 else 0, url⟩ := by
  by_cases h1 : s = ""
  · subst h1; rfl
  · by_cases h2 : s = "Unknown"
    · subst h2; rfl
    · simp only [Episode.init, durationExpr, DurationArg.truthy, DurationArg.neUnknown,
        pyFloat, h1, h2, ne_eq, not_false_eq_true, and_self, if_true]
      cases hpf : pf s <;> simp [h1, h2, hpf]

/-- Characterization of `Episode.__init__` on a numeric duration: the
number is stored unchanged (a zero duration is falsy but the `else`
branch also stores `0.0`). -/
theorem episode_init_num_eq (pf : String → Option Rat) (t d : String) (q : Rat)
    (url : Option String) :
    Episode.init pf t d (.num q) url = .ok ⟨t, d, q, url⟩ := by
  by_cases h : q = 0
  · subst h; rfl
  · simp [Episode.init, durationExpr, DurationArg.truthy, DurationArg.neUnknown, pyFloat, h]

/-- Characterization of `Episode.__init__` on a `None` duration: `None`
is falsy, so the stored duration is `0.0`. -/
theorem episode_init_pyNone_eq (pf : String → Option Rat) (t d : String)
    (url : Option String) :
    Episode.init pf t d .pyNone url = .ok ⟨t, d, 0, url⟩ := rfl

/-- C9: `Episode.__init__` is total over string/number/`None` duration
arguments (the `except ValueError` catches every parse failure), and
`None`, the empty string, `"Unknown"`, and any string the float parser
rejects all yield a stored duration of `0.0`. -/
theorem C9_episode_init_total (pf : String → Option Rat) (t d : String)
    (dur : DurationArg) (url : Option String) :
    (∃ e, Episode.init pf t d dur url = .ok e)
      ∧ (dur = .pyNone ∨ dur = .str "" ∨ dur = .str "Unknown" →
          Episode.init pf t d dur url = .ok ⟨t, d, 0, url⟩)
      ∧ (∀ s, dur = .str s → pf s = none →
          Episode.init pf t d dur url = .ok ⟨t, d, 0, url⟩) := by
  refine ⟨?_, ?_, ?_⟩
  · cases dur with
    | str s => exact ⟨_, episode_init_str_eq pf t d s url⟩
    | num q => exact ⟨_, episode_init_num_eq pf t d q url⟩
    | pyNone => exact ⟨_, episode_init_pyNone_eq pf t d url⟩
  · rintro (rfl | rfl | rfl)
    · exact episode_init_pyNone_eq pf t d url
    · simpa using episode_init_str_eq pf t d "" url
    · simpa using episode_init_str_eq pf t d "Unknown" url
  · rintro s rfl hpf
    simpa [hpf] using episode_init_str_eq pf t d s url

/-- Witness for C9 at a parser that rejects everything and the concrete
string `"12:34"`. -/
theorem C9_witness :
    (∃ e, Episode.init (fun _ => none) "t" "d" (.str "12:34") none = .ok e)
      ∧ Episode.init (fun _ => none) "t" "d" (.str "12:34") none
          = .ok ⟨"t", "d", 0, none⟩ :=
  ⟨(C9_episode_init_total (fun _ => none) "t" "d" (.str "12:34") none).1,
   (C9_episode_init_total (fun _ => none) "t" "d" (.str "12:34") none).2.2 "12:34" rfl rfl⟩

/-- C7 fails as stated: a negative numeric duration argument is truthy
and not `"Unknown"`, so `float` returns it unchanged and the stored
duration is negative.  Concretely, `Episode("t", "d", -5, None)` stores
duration `-5 < 0`. -/
theorem C7_negative_duration_counterexample :
    Episode.init (fun _ => none) "t" "d" (.num (-5)) none
        = .ok ⟨"t", "d", -5, none⟩
      ∧ (-5 : Rat) < 0 := by
  exact ⟨rfl, by norm_num⟩

/-- C7 amended: the stored duration is non-negative provided every value
the float parser produces and every numeric argument is non-negative;
falsy, `"Unknown"` and unparsable inputs map to `0`, and parsed/numeric
values are stored unchanged (so a negative raw value is stored negative). -/
theorem C7_duration_nonneg_for_nonneg_inputs (pf : String → Option Rat)
    (t d : String) (dur : DurationArg) (url : Option String)
    (hpf : ∀ s q, pf s = some q → 0 ≤ q)
    (hnum : ∀ q, dur = .num q → 0 ≤ q) :
    ∃ e, Episode.init pf t d dur url = .ok e ∧ 0 ≤ e.duration := by
  cases dur with
  | str s =>
      refine ⟨_, episode_init_str_eq pf t d s url, ?_⟩
      dsimp only
      split
      · cases hq : pf s with
        | some q => simpa [hq] using hpf s q hq
        | none => simp [hq]
      · exact le_refl 0
  | num q => exact ⟨_, episode_init_num_eq pf t d q url, hnum q rfl⟩
  | pyNone => exact ⟨_, episode_init_pyNone_eq pf t d url, le_refl 0⟩

/-- Witness for the amended C7 at the non-negative numeric input `2`. -/
theorem C7_witness :
    ∃ e, Episode.init (fun _ => none) "t" "d" (.num 2) none = .ok e ∧ 0 ≤ e.duration :=
  C7_duration_nonneg_for_nonneg_inputs (fun _ => none) "t" "d" (.num 2) none
    (fun _ q h => by cases h)
    (fun q h => by cases h; norm_num)

/-- C10: `toggle_play_pause` leaves `current_time`, `audio`, `episode`
(and the global mixer contents and staged temp files) unchanged in every
state; only the two flags and the command trace can change. -/
theorem C10_toggle_play_pause_frame (s : EpisodeDetailScreen) :
    (toggle_play_pause s).current_time = s.current_time
      ∧ (toggle_play_pause s).audio = s.audio
      ∧ (toggle_play_pause s).episode = s.episode
      ∧ (toggle_play_pause s).mixer_music = s.mixer_music
      ∧ (toggle_play_pause s).temp_files = s.temp_files := by
  unfold toggle_play_pause
  split
  · exact ⟨rfl, rfl, rfl, rfl, rfl⟩
  · split
    · exact ⟨rfl, rfl, rfl, rfl, rfl⟩
    · exact ⟨rfl, rfl, rfl, rfl, rfl⟩

/-- C8: from a playing state, two `toggle_play_pause` calls return to
playing with `current_time` unchanged (the code never touches
`current_time`; the progress-tracking code is commented out, so the
clock is effectively fixed); and when neither `is_playing` nor
`is_paused` holds, `toggle_play_pause` is a no-op on the whole state. -/
theorem C8_toggle_pause_pair (s : EpisodeDetailScreen) :
    (s.is_playing = true →
        (toggle_play_pause (toggle_play_pause s)).is_playing = true
          ∧ (toggle_play_pause (toggle_play_pause s)).current_time = s.current_time)
      ∧ (s.is_playing = false → s.is_paused = false → toggle_play_pause s = s) := by
  constructor
  · intro hp
    simp [toggle_play_pause, hp]
  · intro hp hpa
    simp [toggle_play_pause, hp, hpa]

/-- A concrete playing screen state, used to witness C8. -/
def sPlayingW : EpisodeDetailScreen :=
  { episode := epWithUrl, is_playing := true, is_paused := false, current_time := 7,
    audio := some "w8.mp3", mixer_music := some "w8.mp3", temp_files := ["w8.mp3"],
    events := [] }

/-- Witness for C8 at a concrete playing state and a concrete idle state. -/
theorem C8_witness :
    ((toggle_play_pause (toggle_play_pause sPlayingW)).is_playing = true
        ∧ (toggle_play_pause (toggle_play_pause sPlayingW)).current_time
            = sPlayingW.current_time)
      ∧ toggle_play_pause (init epWithUrl none []) = init epWithUrl none [] :=
  ⟨(C8_toggle_pause_pair sPlayingW).1 rfl,
   (C8_toggle_pause_pair (init epWithUrl none [])).2 rfl rfl⟩

/-- C6 fails as stated: a successful fetch completion does not always
start playback.  Reachable trace: screen A played `t1.mp3` and was
dismissed, leaving it loaded in the global mixer; on a fresh screen B
for the same episode, a first fetch fails, whereupon the unconditional
`pygame.mixer.music.play(start=0)` succeeds against the stale mixer —
restarting the old track — and sets `is_playing = True` while `audio`
is still `None`.  The user's retry fetches successfully and the
completion handler loads `t2.mp3` into the mixer, but `start_playing`'s
`if not self.is_playing:` guard now skips `play` entirely: the trace
gained a `load` of `t2.mp3` with no `play` after it (the only `play`
in the whole trace is the stale-track one from before the successful
fetch). -/
theorem C6_stale_mixer_counterexample :
    (let s0 := init epWithUrl (some "t1.mp3") ["t1.mp3"]
     let r1 := start_playing FetchOutcome.errEarly s0
     let r2 := start_playing (FetchOutcome.ok "t2.mp3") r1.1
     r1.2 = none ∧ r1.1.is_playing = true ∧ r1.1.audio = none
       ∧ r2.2 = none ∧ r2.1.audio = some "t2.mp3"
       ∧ r2.1.events = [Ev.load "t2.mp3", Ev.fetchStart "http://x/a.mp3",
           Ev.play 0, Ev.fetchStart "http://x/a.mp3"]) :=
  ⟨rfl, rfl, rfl, rfl, rfl, rfl⟩

/-- C6 amended: a successful fetch completion loads the file into the
mixer and, provided the screen is not already marked playing (in
particular on any fresh screen), immediately starts playback from
`current_time` with no further user command; a fresh screen's
`current_time` defaults to `0`.  (When a prior failed fetch has replayed
a stale mixer track and set `is_playing`, the completion loads the file
but issues no play command — see the counterexample above.) -/
theorem C6_success_starts_playback (s : EpisodeDetailScreen) (f : String)
    (hf : f ≠ "") (hp : s.is_playing = false) :
    on_audio_download_complete (some f) s
        = ({ s with
              audio := some f
              mixer_music := some f
              is_playing := true
              events := Ev.play s.current_time :: Ev.load f :: s.events }, none)
      ∧ (∀ ep ml ts, (init ep ml ts).current_time = 0) := by
  refine ⟨?_, fun ep ml ts => rfl⟩
  simp [on_audio_download_complete, playSegment, hp]

/-- Witness for C6 at a fresh screen and the concrete file `"t6.mp3"`. -/
theorem C6_witness :
    on_audio_download_complete (some "t6.mp3") (init epWithUrl none [])
        = ({ init epWithUrl none [] with
              audio := some "t6.mp3"
              mixer_music := some "t6.mp3"
              is_playing := true
              events := Ev.play (init epWithUrl none []).current_time
                :: Ev.load "t6.mp3" :: (init epWithUrl none []).events }, none) :=
  (C6_success_starts_playback (init epWithUrl none []) "t6.mp3" (by decide) rfl).1

/-- A screen state in which episode B's fetch has completed: B's file is
staged, loaded in the global mixer, and playing. -/
def sPlayingB : EpisodeDetailScreen :=
  { episode := epWithUrl, is_playing := true, is_paused := false, current_time := 0,
    audio := some "b.mp3", mixer_music := some "b.mp3", temp_files := ["b.mp3"],
    events := [] }

/-- C4 fails as stated: `on_audio_download_complete` performs no
generation (or any other staleness) check, so a late completion for a
superseded fetch is applied unconditionally.  Concretely, with episode
B's file `b.mp3` staged, loaded and playing, a stale completion carrying
`a.mp3` overwrites `audio` and reloads the global mixer with `a.mp3` —
the session state changes and the final state no longer reflects only
B's outcome. -/
theorem C4_stale_notification_counterexample :
    (on_audio_download_complete (some "a.mp3") sPlayingB).1.audio = some "a.mp3"
      ∧ sPlayingB.audio = some "b.mp3"
      ∧ (on_audio_download_complete (some "a.mp3") sPlayingB).1.mixer_music = some "a.mp3"
      ∧ (on_audio_download_complete (some "a.mp3") sPlayingB).1 ≠ sPlayingB := by
  refine ⟨rfl, rfl, rfl, ?_⟩
  decide

/-- C4 amended: every non-`None` fetch completion is applied
unconditionally — the handler stores the delivered file in `audio` and
loads it into the global mixer whatever the current session state, so
the final state reflects the last notification applied rather than the
latest `play`'s outcome. -/
theorem C4_notification_applied_unconditionally (s : EpisodeDetailScreen) (f : String)
    (hf : f ≠ "") :
    (on_audio_download_complete (some f) s).1.audio = some f
      ∧ (on_audio_download_complete (some f) s).1.mixer_music = some f := by
  simp only [on_audio_download_complete]
  unfold playSegment
  split
  · exact ⟨rfl, rfl⟩
  · exact ⟨rfl, rfl⟩

/-- Witness for the amended C4 at a fresh screen and file `"a.mp3"`. -/
theorem C4_witness :
    (on_audio_download_complete (some "a.mp3") (init epWithUrl none [])).1.audio
        = some "a.mp3"
      ∧ (on_audio_download_complete (some "a.mp3") (init epWithUrl none [])).1.mixer_music
          = some "a.mp3" :=
  C4_notification_applied_unconditionally (init epWithUrl none []) "a.mp3" (by decide)

/-- C3 fails as stated: a transport failure while reading the response
body (`.errBody`) occurs after `NamedTemporaryFile(delete=False)` has
created the staging file, and no path deletes it — a resource IS leaked;
moreover no Failed status is recorded anywhere, and the unconditional
`pygame.mixer.music.play()` that follows raises `pygame.error` out of
the handler because nothing is loaded. -/
theorem C3_fetch_failure_counterexample :
    (start_playing (.errBody "leak3.mp3") (init epWithUrl none [])).1.temp_files
        = ["leak3.mp3"]
      ∧ (start_playing (.errBody "leak3.mp3") (init epWithUrl none [])).2
          = some PyErr.pygameError := ⟨rfl, rfl⟩

/-- C3 amended: on a transport/HTTP failure `download_audio` returns
`None` and the completion handler only prints — there is no Failed
status; `audio` stays `None` and `is_playing` stays false.  A failure
before the body is read stages nothing, but a failure while reading the
body leaves the created temp file staged (leaked).  In both cases the
subsequent unconditional play attempt raises `pygame.error` (no track
loaded on a fresh mixer), and the resulting state still accepts a new
`play`, which fetches again and starts playback on success. -/
theorem C3_fetch_failure_behavior (ep : Episode) (ts : List String) (tmp : String)
    (h : truthyOptStr ep.audio_url = true) (htmp : tmp ≠ "") :
    (let r := start_playing FetchOutcome.errEarly (init ep none ts)
     r.1.audio = none ∧ r.1.is_playing = false ∧ r.1.temp_files = ts
       ∧ r.2 = some PyErr.pygameError)
      ∧ (let r := start_playing (FetchOutcome.errBody tmp) (init ep none ts)
         r.1.audio = none ∧ r.1.is_playing = false ∧ r.1.temp_files = tmp :: ts
           ∧ r.2 = some PyErr.pygameError)
      ∧ (let r := start_playing FetchOutcome.errEarly (init ep none ts)
         let r2 := start_playing (FetchOutcome.ok tmp) r.1
         r2.2 = none ∧ r2.1.is_playing = true ∧ r2.1.audio = some tmp) := by
  have h0 : truthyOptStr (none : Option String) = false := rfl
  refine ⟨?_, ?_, ?_⟩ <;>
    simp [start_playing, load_audio, download_audio, on_audio_download_complete,
      playSegment, init, h, h0]

/-- Witness for the amended C3 at a concrete episode, empty initial
temp-file set, and temp file `"w3.mp3"`. -/
theorem C3_witness :
    (let r := start_playing (FetchOutcome.errBody "w3.mp3") (init epWithUrl none [])
     r.1.audio = none ∧ r.1.is_playing = false ∧ r.1.temp_files = "w3.mp3" :: []
       ∧ r.2 = some PyErr.pygameError) :=
  (C3_fetch_failure_behavior epWithUrl [] "w3.mp3" rfl (by decide)).2.1

/-- C5 fails on the code: `load_audio` wraps the executor in a `with`
block, whose exit calls `shutdown(wait=True)` and blocks the control
thread until the download and its completion callback have finished.
Consequently, when the play command returns, the fetch outcome is
already fully applied — the command did not return "immediately after
issuing the fetch"; it blocked on the network retrieval.  Concretely,
pressing play on a fresh screen returns with the downloaded file already
stored, loaded and playing. -/
theorem C5_play_blocks_until_fetch_done :
    (let r := on_button_pressed (FetchOutcome.ok "t5.mp3") "play_button"
        (init epWithUrl none [])
     r.1.audio = some "t5.mp3" ∧ r.1.is_playing = true ∧ r.2 = none
       ∧ r.1.events = [Ev.play 0, Ev.load "t5.mp3",
           Ev.fetchStart "http://x/a.mp3"]) :=
  ⟨rfl, rfl, rfl, rfl⟩

/-- C1 fails on the code: no reachable path ever deletes a staged temp
file.  `download_audio` creates it with `delete=False`; the only
deletion (`os.remove` in `on_music_finished`) is commented out; the
back/dismiss button only pops the screen; and no finish event is
handled.  Concretely, after a successful fetch-and-play followed by
dismiss, one staged temp file is still outstanding instead of zero. -/
theorem C1_staged_temp_never_released :
    (let s1 := (on_button_pressed (FetchOutcome.ok "t1.mp3") "play_button"
        (init epWithUrl none [])).1
     let s2 := (on_button_pressed FetchOutcome.errEarly "back_button" s1).1
     s2.temp_files = ["t1.mp3"] ∧ s2.temp_files.length ≠ 0) :=
  ⟨rfl, by decide⟩
